import Mathlib

/-!
Verification of the ADB SQLite query tool (`adb_sqlite_query_tool.py`).

The tool is modelled as a state machine over an oracle of device responses:
every `subprocess.run` call consumes the next response (indexed by a call
counter).  External collaborators (the local filesystem, the `json` / `gzip`
/ `hashlib` / `sqlite3` libraries) are parameters of the environment.
Python strings are modelled by Lean `String`; the Python string operations
used by the tool (`strip`, `upper`, `lower`, `startswith`, `in`, `split`,
`rstrip`, `replace`) are defined below on `String.data` lists.
-/

namespace ADB

/-- Python `str.upper()` (ASCII behaviour, which is all the tool relies on). -/
def pyUpper (s : String) : String := String.mk (s.data.map Char.toUpper)

/-- Python `str.lower()` (ASCII behaviour). -/
def pyLower (s : String) : String := String.mk (s.data.map Char.toLower)

/-- Python `str.strip()`: remove leading and trailing whitespace. -/
def pyStrip (s : String) : String :=
  String.mk (((s.data.dropWhile Char.isWhitespace).reverse.dropWhile Char.isWhitespace).reverse)

/-- Worker for `pySplit`, fuelled to stay structurally recursive; the fuel
is always at least the length of the remaining list plus one, so it never
runs out for the initial call. -/
def pySplitGo (sep : List Char) : Nat → List Char → List Char → List (List Char)
  | 0, rest, acc => [acc.reverse ++ rest]
  | _ + 1, [], acc => [acc.reverse]
  | fuel + 1, c :: cs, acc =>
    if sep.isPrefixOf (c :: cs) then
      acc.reverse :: pySplitGo sep fuel ((c :: cs).drop sep.length) []
    else pySplitGo sep fuel cs (c :: acc)

/-- Python `str.split(sep)` for a non-empty separator: split at every
non-overlapping occurrence, keeping empty pieces. -/
def pySplit (s sep : String) : List String :=
  (pySplitGo sep.data (s.data.length + 1) s.data []).map String.mk

/-- Worker for `pyReplace`, fuelled like `pySplitGo`. -/
def pyReplaceGo (old new : List Char) : Nat → List Char → List Char
  | 0, rest => rest
  | _ + 1, [] => []
  | fuel + 1, c :: cs =>
    if old.isPrefixOf (c :: cs) then
      new ++ pyReplaceGo old new fuel ((c :: cs).drop old.length)
    else c :: pyReplaceGo old new fuel cs

/-- Python `str.replace(old, new)` for a non-empty `old`: replace every
non-overlapping occurrence, left to right. -/
def pyReplace (s old new : String) : String :=
  String.mk (pyReplaceGo old.data new.data (s.data.length + 1) s.data)

/-- Digit-string accumulator for `pyParseInt`. -/
def pyDigitsGo : List Char → Nat → Option Nat
  | [], acc => some acc
  | c :: cs, acc =>
    if c.isDigit then pyDigitsGo cs (acc * 10 + (c.toNat - 48)) else none

/-- Python `int(s)` on an already-stripped string: an optional sign followed
by at least one digit; anything else raises (modelled as `none`). -/
def pyParseInt (s : String) : Option Int :=
  match s.data with
  | [] => none
  | '-' :: rest =>
    match rest with
    | [] => none
    | _ => (pyDigitsGo rest 0).map (fun n => -(n : Int))
  | '+' :: rest =>
    match rest with
    | [] => none
    | _ => (pyDigitsGo rest 0).map (fun n => (n : Int))
  | l => (pyDigitsGo l 0).map (fun n => (n : Int))

/-- Python `str.startswith(pre)`. -/
def startswith (s pre : String) : Bool := pre.data.isPrefixOf s.data

/-- `sub` occurs as a contiguous sublist of `l`. -/
def infixOf (sub : List Char) : List Char → Bool
  | [] => sub.isEmpty
  | c :: cs => sub.isPrefixOf (c :: cs) || infixOf sub cs

/-- Python `sub in s` (substring containment). -/
def pyContains (s sub : String) : Bool := infixOf sub.data s.data

/-- Python `str.rstrip(';')`: remove trailing semicolon characters. -/
def rstripSemi (s : String) : String :=
  String.mk ((s.data.reverse.dropWhile (fun ch => ch == ';')).reverse)

/-- A row of query output: ordered column-name/value pairs (a Python dict
built by `dict(zip(headers, values))` or `dict(row)`). -/
abbrev Row := List (String × String)

/-- Insert a key/value pair into an association list with Python-dict
semantics: an existing key keeps its position but gets the new value. -/
def dictInsert (r : Row) (k v : String) : Row :=
  if r.any (fun p => p.1 == k) then
    r.map (fun p => if p.1 == k then (k, v) else p)
  else r ++ [(k, v)]

/-- Python `dict(zip(headers, values))` for equal-length lists. -/
def dictZip (headers values : List String) : Row :=
  (headers.zip values).foldl (fun r p => dictInsert r p.1 p.2) ([] : Row)

/-- The response of one `subprocess.run` call: captured stdout, stderr and
exit code, or expiry of the call's timeout. -/
inductive Shot where
  | ok (stdout stderr : String) (code : Int)
  | timeout
deriving DecidableEq

/-- Outcome of running one statement through the local `sqlite3` library:
either fetched rows or an `sqlite3.Error` with its message. -/
inductive SqliteLocal where
  | ok (rows : List Row)
  | err (msg : String)

/-- The mutable fields of a `SQLiteADBQueryTool` instance (constructor
arguments plus the instance attributes assigned during execution). -/
structure Tool where
  package_name : String := "com.winitsoftware.emiratessnacks"
  db_name : String := "master_data.db"
  force_local : Bool := false
  use_cache : Bool := true
  force_pull : Bool := false
  user_id : Option Int := none
  device_serial : Option String := none
  run_as_supported : Option Bool := none
  sqlite3_path : Option String := none
  local_db_path : Option String := none
  device_db_path : Option String := none
  last_error : Option String := none
deriving DecidableEq

/-- The tool's environment: the device (an oracle giving the response of the
k-th issued command) and the external libraries / local filesystem facts the
code consults. -/
structure Env where
  oracle : Nat → Shot
  /-- whether the bundled `sqlite3-arm64` binary ships next to the tool -/
  bundledExists : Bool
  /-- `load_cache_metadata()` flattened to the consulted `mtime` field;
  `none` models a missing, unreadable or empty metadata file -/
  metadata : Option Int
  /-- whether the materialized cache file exists -/
  cacheFileExists : Bool
  /-- `os.path.exists(self.local_db_path)` -/
  localDbExists : Bool
  /-- the md5-of-`ls -l`-output degraded fingerprint (`hashlib` library) -/
  hashFn : String → Int
  /-- `json.loads`: `none` = `JSONDecodeError`, `some none` = parsed to a
  non-list value, `some (some rows)` = parsed to a list of row objects -/
  parseJson : String → Option (Option (List Row))
  /-- whether local `gzip` decompression of the transferred bytes succeeds -/
  decompressOk : Bool
  /-- whether the decompressed file exists afterwards -/
  decompressedExists : Bool
  /-- the `tempfile.NamedTemporaryFile` path used when caching is off -/
  tempfilePath : String
  /-- outcome of executing the statement through the local sqlite3 library -/
  localRun : SqliteLocal

/-- `is_write_query`: prefix check of the trimmed upper-cased query against
the fixed write-keyword list (source lines 630-642). -/
def write_operations : List String :=
  ["INSERT", "UPDATE", "DELETE", "DROP", "CREATE", "ALTER", "REPLACE"]

def is_write_query (q : String) : Bool :=
  write_operations.any (fun op => startswith (pyUpper (pyStrip q)) op)

/-- The read-keyword test `query.strip().upper().startswith('SELECT') or
query.strip().upper().startswith('PRAGMA')` used at source lines 552-553 and
1028. -/
def read_keyword_test (q : String) : Bool :=
  startswith (pyUpper (pyStrip q)) "SELECT" || startswith (pyUpper (pyStrip q)) "PRAGMA"

/-- The version-marker test `'SQLite' in output or '3.' in output` used by
`ensure_sqlite3_on_device`. -/
def hasMarker (out : String) : Bool :=
  pyContains out "SQLite" || pyContains out "3."

/-- A target database instance: the identifying constructor arguments
(source lines 45-47). -/
structure Target where
  package_name : String
  db_name : String
  user_id : Option Int
  device_serial : Option String
deriving DecidableEq

/-- `cache_suffix = f"_user{user_id}" if user_id else ""` (line 74);
Python truthiness makes both `None` and `0` give the empty suffix. -/
def cache_suffix (user_id : Option Int) : String :=
  match user_id with
  | some u => if u == 0 then "" else "_user" ++ toString u
  | none => ""

/-- `device_suffix = f"_{device_serial.replace(':', '_').replace('.', '_')}"
if device_serial else ""` (line 75). -/
def device_suffix (ds : Option String) : String :=
  match ds with
  | some s => if s == "" then "" else "_" ++ (pyReplace (pyReplace s ":" "_") "." "_")
  | none => ""

/-- The per-instance cache directory name (line 72). -/
def cacheDir : String := "adb_sqlite_cache"

/-- The metadata side-car file for a target (line 76). -/
def metadataFileName (t : Target) : String :=
  cacheDir ++ "/" ++ t.package_name ++ "_" ++ t.db_name ++
    cache_suffix t.user_id ++ device_suffix t.device_serial ++ ".json"

/-- The materialized database file for a target (lines 293, 673, 1075):
`cache_dir / f"{package_name}_{db_name}"`. -/
def dataFileName (t : Target) : String :=
  cacheDir ++ "/" ++ t.package_name ++ "_" ++ t.db_name

/-- The materialized cache file for a tool instance (same formula). -/
def cached_db_file (tool : Tool) : String :=
  cacheDir ++ "/" ++ tool.package_name ++ "_" ++ tool.db_name

/-- Result of `find_database_path`: the located remote path (if any) and the
updated device-command counter. -/
structure FindOut where
  path : Option String
  n : Nat
deriving DecidableEq

/-- The candidate remote locations tried in order (source lines 192-197). -/
def db_locations (db_name : String) : List String :=
  ["databases/" ++ db_name, "files/" ++ db_name, "files/SQLite/" ++ db_name]

/-- The probing loop of `find_database_path` (lines 199-206): first location
whose `ls` succeeds with the database name in its output wins; a command
timeout is caught by the surrounding handler and yields `None`. -/
def findLoop (env : Env) (db_name : String) : List String → Nat → FindOut
  | [], n => ⟨none, n⟩
  | p :: ps, n =>
    match env.oracle n with
    | .timeout => ⟨none, n + 1⟩
    | .ok so _ c =>
      if c == 0 && pyContains so db_name then ⟨some p, n + 1⟩
      else findLoop env db_name ps (n + 1)

/-- `find_database_path` (source lines 184-209). -/
def find_database_path (env : Env) (db_name : String) (n : Nat) : FindOut :=
  findLoop env db_name (db_locations db_name) n

/-- Result of `get_remote_db_mtime`: the fingerprint value (0 is the
"could not determine" sentinel) and the updated command counter. -/
structure MtimeOut where
  val : Int
  n : Nat
deriving DecidableEq

/-- `get_remote_db_mtime` (source lines 211-248): locate the database, try
`stat -c %Y`, fall back to hashing the `ls -l` output; every failure path
(including timeouts and an unparsable stat output, both of which raise and
are caught at line 246) returns the sentinel 0. -/
def get_remote_db_mtime (env : Env) (db_name : String) (n : Nat) : MtimeOut :=
  let f := find_database_path env db_name n
  match f.path with
  | none => ⟨0, f.n⟩
  | some _ =>
    match env.oracle f.n with
    | .timeout => ⟨0, f.n + 1⟩
    | .ok so _ c =>
      if c == 0 then
        match pyParseInt (pyStrip so) with
        | some v => ⟨v, f.n + 1⟩
        | none => ⟨0, f.n + 1⟩
      else
        match env.oracle (f.n + 1) with
        | .timeout => ⟨0, f.n + 2⟩
        | .ok so2 _ c2 => if c2 == 0 then ⟨env.hashFn so2, f.n + 2⟩ else ⟨0, f.n + 2⟩

/-- Result of `get_cached_db_path`. -/
structure CacheOut where
  path : Option String
  n : Nat
deriving DecidableEq

/-- `get_cached_db_path` (source lines 279-310): caching off or forced pull
gives `None`; missing metadata or missing cache file gives `None`; an
undeterminable remote fingerprint (sentinel 0) optimistically keeps the
cache; otherwise the cache is kept exactly when the fingerprints match. -/
def get_cached_db_path (env : Env) (tool : Tool) (n : Nat) : CacheOut :=
  if !tool.use_cache || tool.force_pull then ⟨none, n⟩
  else
    match env.metadata with
    | none => ⟨none, n⟩
    | some mt =>
      if !env.cacheFileExists then ⟨none, n⟩
      else
        let m := get_remote_db_mtime env tool.db_name n
        if m.val == 0 then ⟨some (cached_db_file tool), m.n⟩
        else if m.val == mt then ⟨some (cached_db_file tool), m.n⟩
        else ⟨none, m.n⟩

/-- Result of the system-path loop inside `ensure_sqlite3_on_device`. -/
inductive SysRes where
  | raised (n : Nat)
  | found (p : String) (n : Nat)
  | exhausted (n : Nat)
deriving DecidableEq

/-- The fixed system locations probed for sqlite3 (source lines 332-336). -/
def system_paths : List String :=
  ["/system/bin/sqlite3", "/system/xbin/sqlite3", "/data/local/tmp/sqlite3"]

/-- The system-path loop of `ensure_sqlite3_on_device` (lines 338-372).
Each probe, copy, chmod and verify is a raw `subprocess.run` with a timeout
and no surrounding handler, so a timeout raises out of the function.  On a
successful probe the binary is copied into the app directory; if the copy
fails the system path itself is returned; if the copy succeeds but the
re-verification fails the loop moves on to the next path. -/
def trySystemPaths (env : Env) : List String → Nat → SysRes
  | [], n => .exhausted n
  | p :: ps, n =>
    match env.oracle n with
    | .timeout => .raised (n + 1)
    | .ok so se c =>
      if c == 0 && hasMarker (pyStrip (so ++ se)) then
        match env.oracle (n + 1) with
        | .timeout => .raised (n + 2)
        | .ok _ _ cc =>
          if cc == 0 then
            match env.oracle (n + 2) with
            | .timeout => .raised (n + 3)
            | .ok _ _ _ =>
              match env.oracle (n + 3) with
              | .timeout => .raised (n + 4)
              | .ok _ _ cv =>
                if cv == 0 then .found "./sqlite3" (n + 4)
                else trySystemPaths env ps (n + 4)
          else .found p (n + 2)
      else trySystemPaths env ps (n + 1)

/-- The bundled-binary phase of `ensure_sqlite3_on_device` (lines 375-426).
This whole block sits inside `try/except Exception`, so a timeout here is
absorbed and control reaches the final `return None`. -/
def bundledPhase (env : Env) (n : Nat) : Option String × Nat :=
  match env.oracle n with
  | .timeout => (none, n + 1)
  | .ok _ _ cp =>
    if cp == 0 then
      match env.oracle (n + 1) with
      | .timeout => (none, n + 2)
      | .ok _ _ _ =>
        match env.oracle (n + 2) with
        | .timeout => (none, n + 3)
        | .ok so se cv =>
          if cv == 0 && hasMarker (pyStrip (so ++ se)) then
            match env.oracle (n + 3) with
            | .timeout => (none, n + 4)
            | .ok _ _ cc =>
              if cc == 0 then
                match env.oracle (n + 4) with
                | .timeout => (none, n + 5)
                | .ok _ _ _ => (some "./sqlite3", n + 5)
              else (some "/data/local/tmp/sqlite3", n + 4)
          else (none, n + 3)
    else (none, n + 1)

/-- Outcome of `ensure_sqlite3_on_device`: a normal return of an optional
binary path, or an uncaught exception propagating to the caller. -/
inductive EnsureResult where
  | raised (n : Nat)
  | returned (p : Option String) (n : Nat)
deriving DecidableEq

/-- `ensure_sqlite3_on_device` (source lines 312-431): probe the app-private
copy, then the system paths (promoting a hit into the app directory), then
push the bundled binary if one ships with the tool.  The initial probe and
the system-path stage run outside any try/except, so their timeouts raise. -/
def ensure_sqlite3_on_device (env : Env) (n : Nat) : EnsureResult :=
  match env.oracle n with
  | .timeout => .raised (n + 1)
  | .ok so se c =>
    if c == 0 && hasMarker (pyStrip (so ++ se)) then .returned (some "./sqlite3") (n + 1)
    else
      match trySystemPaths env system_paths (n + 1) with
      | .raised m => .raised m
      | .found p m => .returned (some p) m
      | .exhausted m =>
        if env.bundledExists then
          let r := bundledPhase env m
          .returned r.1 r.2
        else .returned none m

/-- Result of `check_run_as_support`: the boolean, the updated instance
state, and the updated command counter. -/
structure CheckOut where
  result : Bool
  tool : Tool
  n : Nat

/-- `check_run_as_support` (source lines 433-480): memoized on
`run_as_supported`; otherwise locate the database, run the `echo "test"`
probe and provision sqlite3, with the whole body wrapped in
`try/except Exception` so every failure (including an exception raised by
`ensure_sqlite3_on_device`) becomes a memoized `False`. -/
def check_run_as_support (env : Env) (tool : Tool) (n : Nat) : CheckOut :=
  match tool.run_as_supported with
  | some b => ⟨b, tool, n⟩
  | none =>
    let f := find_database_path env tool.db_name n
    match f.path with
    | none => ⟨false, { tool with run_as_supported := some false }, f.n⟩
    | some _ =>
      match env.oracle f.n with
      | .timeout => ⟨false, { tool with run_as_supported := some false }, f.n + 1⟩
      | .ok so _ c =>
        if c != 0 then ⟨false, { tool with run_as_supported := some false }, f.n + 1⟩
        else if !pyContains so "test" then
          ⟨false, { tool with run_as_supported := some false }, f.n + 1⟩
        else
          match ensure_sqlite3_on_device env (f.n + 1) with
          | .raised m => ⟨false, { tool with run_as_supported := some false }, m⟩
          | .returned none m => ⟨false, { tool with run_as_supported := some false }, m⟩
          | .returned (some p) m =>
            ⟨true, { tool with run_as_supported := some true, sqlite3_path := some p }, m⟩

/-- The shell-escaping of the query used to build the remote command
(source lines 510-513): backslashes, double quotes, dollars and backquotes
are backslash-escaped. -/
def escapeForShell (q : String) : String :=
  (((q.replace "\\" "\\\\").replace "\"" "\\\"").replace "$" "\\$").replace "`" "\\`"

/-- `error_msg = result.stderr.strip() or result.stdout.strip()`
(source line 529, Python `or` truthiness). -/
def remote_error_msg (so se : String) : String :=
  if pyStrip se != "" then pyStrip se else pyStrip so

/-- The SQLite-error extraction `error_msg.split("Error:")[-1].strip()`
(source line 535). -/
def extract_error (em : String) : String :=
  pyStrip ((pySplit em "Error:").getLastD "")

/-- The `last_error` assignment for a failed remote command
(source lines 533-539). -/
def remote_last_error (em : String) : String :=
  if pyContains em "Error:" then extract_error em
  else if pyContains (pyLower em) "error" then em
  else if em != "" then em else "Remote query execution failed"

/-- Result of `execute_remote_query` (and of `execute_query_local`):
the optional row list, the updated instance state and command counter. -/
structure RemoteOut where
  result : Option (List Row)
  tool : Tool
  n : Nat

/-- `_execute_remote_query_fallback` (source lines 574-628): header plus
pipe-separated output mode; any exception (including a timeout) is caught
and yields `None`. -/
def remote_query_fallback (env : Env) (n : Nat) : Option (List Row) × Nat :=
  match env.oracle n with
  | .timeout => (none, n + 1)
  | .ok so _ c =>
    if c != 0 then (none, n + 1)
    else
      match pySplit (pyStrip so) "\n" with
      | [] => (some [], n + 1)
      | h :: rest =>
        let headers := (pySplit h "|").map pyStrip
        let rows := rest.filterMap (fun line =>
          if pyStrip line == "" then none
          else
            let values := (pySplit line "|").map pyStrip
            if values.length == headers.length then some (dictZip headers values) else none)
        (some rows, n + 1)

/-- `execute_remote_query` (source lines 482-572): clear `last_error`,
locate the database, run the query on-device (JSON mode for reads), and
classify the outcome.  A non-zero exit that is not "not debuggable" stores
the extracted engine message in `last_error` and returns `None`; a write
query returns `[]` on success; an empty read output returns `[]` only for a
SELECT/PRAGMA prefix; unparsable JSON falls back to the header/separator
mode. -/
def execute_remote_query (env : Env) (tool : Tool) (q : String) (n : Nat) : RemoteOut :=
  let tool := { tool with last_error := none }
  let f := find_database_path env tool.db_name n
  match f.path with
  | none =>
    ⟨none, { tool with last_error := some "Could not find database path on device" }, f.n⟩
  | some _ =>
    let is_write := is_write_query q
    match env.oracle f.n with
    | .timeout =>
      ⟨none, { tool with last_error := some "Query timed out (exceeded 60 seconds)" }, f.n + 1⟩
    | .ok so se c =>
      if c != 0 then
        let em := remote_error_msg so se
        if pyContains (pyLower em) "not debuggable" then ⟨none, tool, f.n + 1⟩
        else ⟨none, { tool with last_error := some (remote_last_error em) }, f.n + 1⟩
      else if is_write then ⟨some [], tool, f.n + 1⟩
      else
        let output := pyStrip so
        if output == "" then
          if read_keyword_test q then ⟨some [], tool, f.n + 1⟩
          else ⟨none, tool, f.n + 1⟩
        else
          match env.parseJson output with
          | some (some rows) => ⟨some rows, tool, f.n + 1⟩
          | some none => ⟨some [], tool, f.n + 1⟩
          | none =>
            let r := remote_query_fallback env (f.n + 1)
            ⟨r.1, tool, r.2⟩

/-- `_pull_database_standard` (source lines 774-800): one `exec-out cat`
transfer; exit 0 writes the file and succeeds, anything else (including the
caught timeout) fails. -/
def pull_database_standard (env : Env) (n : Nat) : Bool × Nat :=
  match env.oracle n with
  | .timeout => (false, n + 1)
  | .ok _ _ c => (c == 0, n + 1)

/-- `_pull_database_compressed` (source lines 802-869): probe `which gzip`
(falling back to the standard transfer when absent), pull `gzip -c` output
(falling back on a non-zero exit), then decompress locally.  A timeout is
caught by the `except TimeoutExpired` handler and returns `False`; a failed
decompression or a missing decompressed file also returns `False` without
falling back. -/
def pull_database_compressed (env : Env) (n : Nat) : Bool × Nat :=
  match env.oracle n with
  | .timeout => (false, n + 1)
  | .ok so _ c =>
    if c != 0 || pyStrip so == "" then pull_database_standard env (n + 1)
    else
      match env.oracle (n + 1) with
      | .timeout => (false, n + 2)
      | .ok _ _ c2 =>
        if c2 != 0 then pull_database_standard env (n + 2)
        else if !env.decompressOk then (false, n + 2)
        else if !env.decompressedExists then (false, n + 2)
        else (true, n + 2)

/-- Trace of `_pull_wal_files`: which side files were found present and
pulled, plus the updated command counter.  The function itself returns
nothing and absorbs every exception (source lines 719-772). -/
structure WalOut where
  walFound : Bool
  walPulled : Bool
  shmProbed : Bool
  shmPulled : Bool
  n : Nat
deriving DecidableEq

/-- `_pull_wal_files` (source lines 719-772): probe `<db>-wal`; only when it
is found are the WAL pulled and the `<db>-shm` companion probed (and pulled
if found).  All failures are non-fatal. -/
def pull_wal_files (env : Env) (n : Nat) : WalOut :=
  match env.oracle n with
  | .timeout => ⟨false, false, false, false, n + 1⟩
  | .ok so _ c =>
    if c == 0 && pyContains so "-wal" then
      match env.oracle (n + 1) with
      | .timeout => ⟨true, false, false, false, n + 2⟩
      | .ok _ _ cw =>
        match env.oracle (n + 2) with
        | .timeout => ⟨true, cw == 0, true, false, n + 3⟩
        | .ok so2 _ c2 =>
          if c2 == 0 && pyContains so2 "-shm" then
            match env.oracle (n + 3) with
            | .timeout => ⟨true, cw == 0, true, false, n + 4⟩
            | .ok _ _ c3 => ⟨true, cw == 0, true, c3 == 0, n + 4⟩
          else ⟨true, cw == 0, true, false, n + 3⟩
    else ⟨false, false, false, false, n + 1⟩

/-- Result of `pull_database`. -/
structure PullOut where
  ok : Bool
  tool : Tool
  n : Nat

/-- `pull_database` (source lines 644-717): use the cache when valid
(re-resolving the device path for a later push), otherwise locate the
database, transfer it (compressed or standard), capture the side files and
record fresh cache metadata. -/
def pull_database (env : Env) (tool : Tool) (useCompression : Bool) (n : Nat) : PullOut :=
  let cch := get_cached_db_path env tool n
  match cch.path with
  | some p =>
    let f := find_database_path env tool.db_name cch.n
    ⟨true, { tool with local_db_path := some p, device_db_path := f.path }, f.n⟩
  | none =>
    let f := find_database_path env tool.db_name cch.n
    match f.path with
    | none => ⟨false, tool, f.n⟩
    | some dbp =>
      let dest := if tool.use_cache then cached_db_file tool else env.tempfilePath
      let tool := { tool with device_db_path := some dbp, local_db_path := some dest }
      let tr := if useCompression then pull_database_compressed env f.n
                else pull_database_standard env f.n
      if tr.1 then
        let w := pull_wal_files env tr.2
        if tool.use_cache then
          let m := get_remote_db_mtime env tool.db_name w.n
          ⟨true, tool, m.n⟩
        else ⟨true, tool, w.n⟩
      else ⟨false, tool, tr.2⟩

/-- `push_database` (source lines 871-925): push to the staging path, copy
into the app directory, and remove the staging file whether or not the copy
succeeded. -/
def push_database (env : Env) (tool : Tool) (n : Nat) : Bool × Nat :=
  match tool.local_db_path with
  | none => (false, n)
  | some _ =>
    if !env.localDbExists then (false, n)
    else
      match tool.device_db_path with
      | none => (false, n)
      | some _ =>
        match env.oracle n with
        | .timeout => (false, n + 1)
        | .ok _ _ c =>
          if c != 0 then (false, n + 1)
          else
            match env.oracle (n + 1) with
            | .timeout => (false, n + 2)
            | .ok _ _ c2 =>
              if c2 != 0 then (false, n + 3)
              else (true, n + 3)

/-- Result of `execute_query_local`, with a trace of whether a push-back to
the device was attempted. -/
structure LocalOut where
  result : Option (List Row)
  tool : Tool
  n : Nat
  pushAttempted : Bool

/-- The post-pull body of `execute_query_local` (source lines 1021-1053):
run the statement through the local sqlite3 library; an `sqlite3.Error` is
stored in `last_error`; a SELECT/PRAGMA prefix returns the fetched rows;
anything else commits and returns `[]`, pushing the database back to the
device first when the query is classified as a write. -/
def execute_query_local_run (env : Env) (tool : Tool) (q : String) (n : Nat) : LocalOut :=
  match env.localRun with
  | .err m => ⟨none, { tool with last_error := some m }, n, false⟩
  | .ok rows =>
    if read_keyword_test q then ⟨some rows, tool, n, false⟩
    else if is_write_query q then
      let pr := push_database env tool n
      ⟨some [], tool, pr.2, true⟩
    else ⟨some [], tool, n, false⟩

/-- `execute_query_local` (source lines 1002-1053): clear `last_error`,
pull the database if no local copy is present (a failed pull stores a
generic message in `last_error` and returns `None`), then execute
locally. -/
def execute_query_local (env : Env) (tool : Tool) (q : String) (n : Nat) : LocalOut :=
  let tool := { tool with last_error := none }
  let need_pull : Bool :=
    match tool.local_db_path with
    | none => true
    | some _ => !env.localDbExists
  if need_pull then
    let p := pull_database env tool true n
    if !p.ok then
      ⟨none, { p.tool with last_error := some "Failed to pull database for local execution" },
        p.n, false⟩
    else execute_query_local_run env p.tool q p.n
  else execute_query_local_run env tool q n

/-- Python truthiness of the optional `limit` argument. -/
def limitTruthy : Option Int → Bool
  | none => false
  | some v => v != 0

/-- The condition guarding the LIMIT rewrite in `execute_query`
(source line 987): `limit and 'LIMIT' not in query.upper() and
query.strip().upper().startswith('SELECT')`. -/
def shouldAddLimit (q : String) (limit : Option Int) : Bool :=
  limitTruthy limit && !pyContains (pyUpper q) "LIMIT" &&
    startswith (pyUpper (pyStrip q)) "SELECT"

/-- The query rewrite of `execute_query` (source lines 986-988):
`f"{query.rstrip(';')} LIMIT {limit};"` when the guard holds. -/
def limitedQuery (q : String) (limit : Option Int) : String :=
  if shouldAddLimit q limit then
    rstripSemi q ++ " LIMIT " ++ (match limit with | some v => toString v | none => "") ++ ";"
  else q

/-- Result of `execute_query`, with a trace of whether the local path was
used. -/
structure ExecOut where
  result : Option (List Row)
  tool : Tool
  n : Nat
  localUsed : Bool

/-- `execute_query` (source lines 971-1000): optionally append a LIMIT
clause, try remote execution when preferred, supported and not forced
local, and fall back to `execute_query_local` whenever the remote attempt
returns `None`. -/
def execute_query (env : Env) (tool : Tool) (q0 : String) (limit : Option Int)
    (prefer_remote : Bool) (n : Nat) : ExecOut :=
  let q := limitedQuery q0 limit
  if prefer_remote && !tool.force_local then
    let ch := check_run_as_support env tool n
    if ch.result then
      let r := execute_remote_query env ch.tool q ch.n
      match r.result with
      | some rows => ⟨some rows, r.tool, r.n, false⟩
      | none =>
        let l := execute_query_local env r.tool q r.n
        ⟨l.result, l.tool, l.n, true⟩
    else
      let l := execute_query_local env ch.tool q ch.n
      ⟨l.result, l.tool, l.n, true⟩
  else
    let l := execute_query_local env tool q n
    ⟨l.result, l.tool, l.n, true⟩

/-- A neutral environment (every command fails with exit 1, no external
resources) from which the concrete scenarios below are built. -/
def baseEnv : Env where
  oracle := fun _ => .ok "" "" 1
  bundledExists := false
  metadata := none
  cacheFileExists := false
  localDbExists := false
  hashFn := fun _ => 0
  parseJson := fun _ => none
  decompressOk := true
  decompressedExists := true
  tempfilePath := "/tmp/tmpl0cal.db"
  localRun := .err "unused"

/-- Scenario: the database is found, the query itself fails on-device with a
SQLite error, and every later command fails (so the fallback pull fails). -/
def oracleC1 : Nat → Shot := fun k =>
  if k == 0 then .ok "databases/d.db" "" 0
  else if k == 1 then .ok "" "Error: no such table: foo" 1
  else .ok "" "" 1

def envC1 : Env := { baseEnv with oracle := oracleC1 }

def toolC1 : Tool := { db_name := "d.db", run_as_supported := some true, use_cache := false }

/-- Scenario: the database is found and `stat -c %Y` reports fingerprint
100, matching the stored metadata. -/
def oracleC2w : Nat → Shot := fun k =>
  if k == 0 then .ok "databases/d.db" "" 0
  else if k == 1 then .ok "100" "" 0
  else .ok "" "" 1

def envC2w : Env :=
  { baseEnv with oracle := oracleC2w, metadata := some 100, cacheFileExists := true }

def toolC2w : Tool := { package_name := "p", db_name := "d.db" }

/-- Scenario: gzip is present and the compressed pull transfers bytes, but
local decompression fails; a standard transfer would have succeeded. -/
def oracleC4x : Nat → Shot := fun k =>
  if k == 0 then .ok "/system/bin/gzip" "" 0 else .ok "sqlitebytes" "" 0

def envC4x : Env := { baseEnv with oracle := oracleC4x, decompressOk := false }

/-- Scenario: the WAL probe finds nothing, while an SHM probe (the next
command, had it been issued) would have found `<db>-shm` present. -/
def oracleC5x : Nat → Shot := fun k =>
  if k == 0 then .ok "" "ls: databases/d.db-wal: No such file or directory" 1
  else .ok "databases/d.db-shm" "" 0

def envC5x : Env := { baseEnv with oracle := oracleC5x }

/-- A query that starts with neither a read keyword (SELECT/PRAGMA) nor a
write keyword. -/
def qWithC7 : String := "WITH t AS (SELECT 1) SELECT * FROM t"

/-- One concrete row as returned by the local sqlite3 library. -/
def rowsC7 : List Row := [[("1", "1")]]

def envC7 : Env := { baseEnv with localRun := .ok rowsC7, localDbExists := true }

def toolC7 : Tool := { local_db_path := some "adb_sqlite_cache/p_d.db" }

/-- Scenario: every device command times out. -/
def envC8to : Env := { baseEnv with oracle := fun _ => .timeout }

/-- Scenario: the database is found and the `echo "test"` probe succeeds,
then the first sqlite3 probe times out — so `ensure_sqlite3_on_device`
raises while its caller `check_run_as_support` is in flight. -/
def oracleC8c : Nat → Shot := fun k =>
  if k == 0 then .ok "databases/master_data.db" "" 0
  else if k == 1 then .ok "test" "" 0
  else .timeout

def envC8c : Env := { baseEnv with oracle := oracleC8c }

/-- Scenario without any timeout: every command fails with exit 1, so
provisioning walks all branches and returns `None`. -/
def envC8w : Env := baseEnv

def toolC9 : Tool := { run_as_supported := some true }

/-- Scenario: the database is found and the query runs with exit 0 and
empty output. -/
def oracleC10x : Nat → Shot := fun k =>
  if k == 0 then .ok "databases/d.db" "" 0
  else if k == 1 then .ok "" "" 0
  else .ok "" "" 1

def envC10x : Env := { baseEnv with oracle := oracleC10x }

def qC10 : String := "WITH s AS (SELECT 2) SELECT * FROM s"

/-- Tool and environment for the C5 witness: caching disabled, the database
found at the first location and the standard transfer succeeding. -/
def toolC5w : Tool := { db_name := "d.db", use_cache := false }

def oracleC5w : Nat → Shot := fun k =>
  if k == 0 then .ok "databases/d.db" "" 0
  else if k == 1 then .ok "bytes" "" 0
  else .ok "" "" 1

def envC5w : Env := { baseEnv with oracle := oracleC5w }

/-- A SELECT query hitting a table, used by several witnesses. -/
def qC1 : String := "SELECT * FROM foo"

/-!  ## Theorems

Helper lemmas first, then one theorem (plus witness or counterexample)
per claim of the specification audit.
-/

/-- A string starting with `SELECT` starts with none of the write keywords:
they all begin with a different letter. -/
theorem write_ops_false_of_select (s : String) (h : startswith s "SELECT" = true) :
    write_operations.any (fun op => startswith s op) = false := by
  unfold startswith at h
  rw [List.isPrefixOf_iff_prefix] at h
  obtain ⟨t, ht⟩ := h
  unfold write_operations
  simp only [List.any_cons, List.any_nil, startswith, ← ht]
  rfl

/-- With no `limit` argument the query rewrite of `execute_query` is the
identity. -/
theorem limitedQuery_none (q : String) : limitedQuery q none = q := by
  simp [limitedQuery, shouldAddLimit, limitTruthy]

/-- C3: two distinct Execution Targets — same package and database name but
different user-profile ids — are kept apart by the metadata file name yet
mapped to the same materialized database file, which is derived from the
package and database name only. -/
theorem C3_target_collision :
    (⟨"p", "d", some 7, none⟩ : Target) ≠ (⟨"p", "d", some 95, none⟩ : Target) ∧
    metadataFileName ⟨"p", "d", some 7, none⟩ ≠ metadataFileName ⟨"p", "d", some 95, none⟩ ∧
    dataFileName ⟨"p", "d", some 7, none⟩ = dataFileName ⟨"p", "d", some 95, none⟩ := by
  refine ⟨by decide, by decide, rfl⟩

/-- C6: whenever `execute_query` rewrites the query to append a LIMIT
clause, the original query contained no occurrence of `LIMIT` (hence no
limit clause), its trimmed upper-cased form begins with the read keyword
SELECT, and it is not classified as a write query. -/
theorem C6_limit_read_only (q : String) (limit : Option Int)
    (h : limitedQuery q limit ≠ q) :
    pyContains (pyUpper q) "LIMIT" = false ∧
    (startswith (pyUpper (pyStrip q)) "SELECT" = true ∨
      startswith (pyUpper (pyStrip q)) "PRAGMA" = true) ∧
    is_write_query q = false := by
  have hs : shouldAddLimit q limit = true := by
    by_contra hng
    rw [Bool.not_eq_true] at hng
    simp [limitedQuery, hng] at h
  have h3 := hs
  simp only [shouldAddLimit, Bool.and_eq_true, Bool.not_eq_true'] at h3
  obtain ⟨⟨h1, h2⟩, hsel⟩ := h3
  exact ⟨h2, Or.inl hsel, write_ops_false_of_select _ hsel⟩

/-- C6 witness: a plain SELECT with limit 5 is rewritten, and the
conclusions hold for it. -/
theorem C6_limit_read_only_witness :
    limitedQuery "SELECT * FROM t" (some 5) ≠ "SELECT * FROM t" ∧
    (pyContains (pyUpper "SELECT * FROM t") "LIMIT" = false ∧
      (startswith (pyUpper (pyStrip "SELECT * FROM t")) "SELECT" = true ∨
        startswith (pyUpper (pyStrip "SELECT * FROM t")) "PRAGMA" = true) ∧
      is_write_query "SELECT * FROM t" = false) :=
  ⟨by decide, C6_limit_read_only "SELECT * FROM t" (some 5) (by decide)⟩

/-- C7 counterexample: a query beginning with WITH is classified neither as
a read (SELECT/PRAGMA) nor as a write by the prefix checks, so the
classification is not the binary partition the claim states; in the
fallback path such a query gets the write-shaped output (the empty
sequence, discarding the rows the local engine returned) while no push-back
occurs. -/
theorem C7_counterexample :
    is_write_query qWithC7 = false ∧
    read_keyword_test qWithC7 = false ∧
    envC7.localRun = SqliteLocal.ok rowsC7 ∧
    rowsC7 ≠ [] ∧
    (execute_query_local envC7 toolC7 qWithC7 0).result = some [] ∧
    (execute_query_local envC7 toolC7 qWithC7 0).pushAttempted = false :=
  ⟨by decide, by decide, rfl, by decide, rfl, rfl⟩

/-- C7 (amended): classification is two independent case-insensitive prefix
checks after trimming — a read check (SELECT/PRAGMA) and a write check
(INSERT/UPDATE/DELETE/DROP/CREATE/ALTER/REPLACE).  In the fallback path the
output is the engine's rows exactly when the read check passes and the
empty success sequence otherwise, and a push-back to the device is
attempted exactly when the write check passes; on the privileged path a
successfully executed write also returns the empty sequence. -/
theorem C7_classification (env : Env) (tool : Tool) (q lp : String) (n : Nat) (rows : List Row)
    (hl : env.localRun = SqliteLocal.ok rows)
    (hp : tool.local_db_path = some lp)
    (he : env.localDbExists = true) :
    ((execute_query_local env tool q n).result =
      some (if read_keyword_test q then rows else [])) ∧
    ((execute_query_local env tool q n).pushAttempted =
      (!read_keyword_test q && is_write_query q)) ∧
    (∀ env2 tool2 m dbp m1 so se,
      find_database_path env2 tool2.db_name m = ⟨some dbp, m1⟩ →
      env2.oracle m1 = Shot.ok so se 0 →
      is_write_query q = true →
      (execute_remote_query env2 tool2 q m).result = some []) := by
  have hloc : execute_query_local env tool q n = execute_query_local_run env
      { tool with last_error := none } q n := by
    simp [execute_query_local, hp, he]
  refine ⟨?_, ?_, ?_⟩
  · rw [hloc]
    by_cases hr : read_keyword_test q
    · simp [execute_query_local_run, hl, hr]
    · rw [Bool.not_eq_true] at hr
      by_cases hw : is_write_query q
      · simp [execute_query_local_run, hl, hr, hw]
      · rw [Bool.not_eq_true] at hw
        simp [execute_query_local_run, hl, hr, hw]
  · rw [hloc]
    by_cases hr : read_keyword_test q
    · simp [execute_query_local_run, hl, hr]
    · rw [Bool.not_eq_true] at hr
      by_cases hw : is_write_query q
      · simp [execute_query_local_run, hl, hr, hw]
      · rw [Bool.not_eq_true] at hw
        simp [execute_query_local_run, hl, hr, hw]
  · intro env2 tool2 m dbp m1 so se hfind hrun hw
    unfold execute_remote_query
    simp only
    rw [show ({ tool2 with last_error := none } : Tool).db_name = tool2.db_name from rfl]
    rw [hfind]
    simp [hrun, hw]

/-- C7 witness: a concrete UPDATE exercises the amended classification on
both paths. -/
theorem C7_classification_witness :
    (execute_query_local envC7 toolC7 "UPDATE t SET x=2" 0).result = some [] ∧
    (execute_query_local envC7 toolC7 "UPDATE t SET x=2" 0).pushAttempted = true := by
  have h := C7_classification envC7 toolC7 "UPDATE t SET x=2" "adb_sqlite_cache/p_d.db" 0
    rowsC7 rfl rfl rfl
  exact ⟨by rw [h.1]; decide, by rw [h.2.1]; decide⟩

/-- C2: with caching enabled, no forced pull, recorded metadata and the
materialized file present, `get_cached_db_path` returns the cached path
whenever the remote fingerprint is the undeterminable sentinel 0, and when
the fingerprint is determinable it returns the cached path exactly when it
equals the stored fingerprint (returning nothing otherwise, which forces a
fresh pull). -/
theorem C2_cache_freshness (env : Env) (tool : Tool) (n : Nat) (mt : Int)
    (h1 : tool.use_cache = true) (h2 : tool.force_pull = false)
    (h3 : env.metadata = some mt) (h4 : env.cacheFileExists = true) :
    ((get_remote_db_mtime env tool.db_name n).val = 0 →
      (get_cached_db_path env tool n).path = some (cached_db_file tool)) ∧
    ((get_remote_db_mtime env tool.db_name n).val ≠ 0 →
      ((get_cached_db_path env tool n).path = some (cached_db_file tool) ↔
        (get_remote_db_mtime env tool.db_name n).val = mt)) := by
  unfold get_cached_db_path
  rw [h1, h2, h3, h4]
  simp only [Bool.not_true, Bool.or_self, Bool.false_or, if_false, Bool.not_false,
    Bool.false_eq_true, if_neg (Bool.false_ne_true)]
  constructor
  · intro h0
    simp [h0]
  · intro hne
    have h0 : ((get_remote_db_mtime env tool.db_name n).val == 0) = false := by
      simpa using hne
    rw [h0]
    by_cases he : (get_remote_db_mtime env tool.db_name n).val = mt
    · simp [he]
    · have : ((get_remote_db_mtime env tool.db_name n).val == mt) = false := by
        simpa using he
      simp [this, he]

/-- C2 witness: stored fingerprint 100, remote `stat` reporting 100 — the
cached path is returned. -/
theorem C2_cache_freshness_witness :
    (get_cached_db_path envC2w toolC2w 0).path = some (cached_db_file toolC2w) :=
  ((C2_cache_freshness envC2w toolC2w 0 100 rfl rfl rfl rfl).2 (by decide)).mpr (by decide)

/-- C4 counterexample: with gzip present and the compressed bytes
transferred, a failed local decompression makes the pull fail outright —
no uncompressed transfer is attempted, although a standard transfer at that
point would have succeeded.  This refutes the claim that every failure
stage of the compressed path falls back to the uncompressed transfer. -/
theorem C4_counterexample :
    pull_database_compressed envC4x 0 = (false, 2) ∧
    pull_database_standard envC4x 2 = (true, 3) := ⟨rfl, rfl⟩

/-- C4 (amended): the compressed transfer is attempted only when the gzip
probe succeeds with non-empty output; a failed probe or a failed remote
compression command falls back to the standard uncompressed transfer with
the same return contract; but a failed local decompression (or a missing
decompressed file) fails the pull without any fallback. -/
theorem C4_compressed_fallback_stages (env : Env) (n : Nat) :
    (∀ so se c, env.oracle n = Shot.ok so se c →
      (c != 0 || pyStrip so == "") = true →
      pull_database_compressed env n = pull_database_standard env (n + 1)) ∧
    (∀ so se c so2 se2 c2, env.oracle n = Shot.ok so se c →
      (c != 0 || pyStrip so == "") = false →
      env.oracle (n + 1) = Shot.ok so2 se2 c2 → (c2 != 0) = true →
      pull_database_compressed env n = pull_database_standard env (n + 2)) ∧
    (∀ so se c so2 se2 c2, env.oracle n = Shot.ok so se c →
      (c != 0 || pyStrip so == "") = false →
      env.oracle (n + 1) = Shot.ok so2 se2 c2 → (c2 != 0) = false →
      env.decompressOk = false →
      pull_database_compressed env n = (false, n + 2)) ∧
    (∀ so se c so2 se2 c2, env.oracle n = Shot.ok so se c →
      (c != 0 || pyStrip so == "") = false →
      env.oracle (n + 1) = Shot.ok so2 se2 c2 → (c2 != 0) = false →
      env.decompressOk = true → env.decompressedExists = false →
      pull_database_compressed env n = (false, n + 2)) := by
  refine ⟨?_, ?_, ?_, ?_⟩
  · intro so se c h1 h2
    unfold pull_database_compressed
    rw [h1]
    simp [h2]
  · intro so se c so2 se2 c2 h1 h2 h3 h4
    unfold pull_database_compressed
    rw [h1]
    simp [h2, h3, h4]
  · intro so se c so2 se2 c2 h1 h2 h3 h4 h5
    unfold pull_database_compressed
    rw [h1]
    simp [h2, h3, h4, h5]
  · intro so se c so2 se2 c2 h1 h2 h3 h4 h5 h6
    unfold pull_database_compressed
    rw [h1]
    simp [h2, h3, h4, h5, h6]

/-- C4 witness: in the neutral environment the gzip probe fails, so the
compressed pull equals the standard pull of the next command. -/
theorem C4_compressed_fallback_stages_witness :
    pull_database_compressed baseEnv 0 = pull_database_standard baseEnv 1 :=
  (C4_compressed_fallback_stages baseEnv 0).1 "" "" 1 rfl (by decide)

/-- C5 counterexample: when the WAL probe finds nothing, `_pull_wal_files`
stops after that single command — the SHM companion is never probed (and
never pulled) even though the very next device response would have reported
it present.  This refutes the claim that the two side files are probed
independently of one another. -/
theorem C5_counterexample :
    pull_wal_files envC5x 0 = ⟨false, false, false, false, 1⟩ ∧
    envC5x.oracle 1 = Shot.ok "databases/d.db-shm" "" 0 ∧
    pyContains "databases/d.db-shm" "-shm" = true := ⟨rfl, rfl, by decide⟩

/-- C5 (amended): the WAL companion is probed first; only when it is found
present are the WAL file pulled and the SHM companion probed (and pulled if
found); and no outcome of the side-file stage affects the enclosing pull's
success — a pull whose main transfer succeeded reports success whatever the
side-file responses are. -/
theorem C5_side_files (env : Env) (n : Nat) :
    ((pull_wal_files env n).shmProbed = true → (pull_wal_files env n).walFound = true) ∧
    ((pull_wal_files env n).shmPulled = true → (pull_wal_files env n).shmProbed = true) ∧
    ((pull_wal_files env n).walPulled = true → (pull_wal_files env n).walFound = true) ∧
    (∀ tool dbp m, tool.use_cache = false →
      find_database_path env tool.db_name n = ⟨some dbp, m⟩ →
      (pull_database_standard env m).1 = true →
      (pull_database env tool false n).ok = true) := by
  refine ⟨?_, ?_, ?_, ?_⟩
  · unfold pull_wal_files
    repeat' split
    all_goals simp
  · unfold pull_wal_files
    repeat' split
    all_goals simp
  · unfold pull_wal_files
    repeat' split
    all_goals simp
  · intro tool dbp m hc hf htr
    unfold pull_database
    have hcch : get_cached_db_path env tool n = ⟨none, n⟩ := by
      unfold get_cached_db_path
      rw [hc]
      simp
    rw [hcch]
    simp only
    rw [hf]
    simp only
    rw [hc]
    simp [htr]

/-- C5 witness: a concrete pull with caching off and a successful main
transfer succeeds (the later side-file commands all fail in this
environment). -/
theorem C5_side_files_witness :
    (pull_database envC5w toolC5w false 0).ok = true :=
  (C5_side_files envC5w 0).2.2.2 toolC5w "databases/d.db" 1 rfl rfl rfl

/-- C9: `run_as_supported` is written by every exit path of
`check_run_as_support`, and once it holds a boolean every later call — under
any device behaviour whatsoever — returns that stored boolean with the
instance state untouched and no device command issued (the command counter
is returned unchanged). -/
theorem C9_memoized (env env2 : Env) (tool : Tool) (n n2 : Nat) :
    (∀ b, tool.run_as_supported = some b → check_run_as_support env tool n = ⟨b, tool, n⟩) ∧
    ((check_run_as_support env tool n).tool.run_as_supported =
      some (check_run_as_support env tool n).result) ∧
    (check_run_as_support env2 (check_run_as_support env tool n).tool n2 =
      ⟨(check_run_as_support env tool n).result, (check_run_as_support env tool n).tool, n2⟩) := by
  have hmemo : ∀ (e : Env) (t : Tool) (k : Nat) (b : Bool),
      t.run_as_supported = some b → check_run_as_support e t k = ⟨b, t, k⟩ := by
    intro e t k b hb
    simp [check_run_as_support, hb]
  have hset : ∀ (e : Env) (t : Tool) (k : Nat),
      (check_run_as_support e t k).tool.run_as_supported =
        some (check_run_as_support e t k).result := by
    intro e t k
    unfold check_run_as_support
    cases heq : t.run_as_supported with
    | some b => simp [heq]
    | none =>
      simp only
      cases hf : (find_database_path e t.db_name k).path with
      | none => simp [hf]
      | some d =>
        simp only [hf]
        cases ho : e.oracle (find_database_path e t.db_name k).n with
        | timeout => simp [ho]
        | ok so se c =>
          simp only [ho]
          by_cases hc : (c != 0) = true
          · simp [hc]
          · by_cases ht : (!pyContains so "test") = true
            · simp [hc, ht]
            · cases hens : ensure_sqlite3_on_device e
                ((find_database_path e t.db_name k).n + 1) with
              | raised m => simp [hc, ht, hens]
              | returned p m =>
                cases p with
                | none => simp [hc, ht, hens]
                | some pp => simp [hc, ht, hens]
  exact ⟨fun b hb => hmemo env tool n b hb, hset env tool n,
    hmemo env2 _ n2 _ (hset env tool n)⟩

/-- C9 witness: an instance memoized to `true` answers `true` under two
different device behaviours (one of which times out everything) without
consuming any command. -/
theorem C9_memoized_witness :
    check_run_as_support baseEnv toolC9 5 = ⟨true, toolC9, 5⟩ ∧
    check_run_as_support envC8to toolC9 7 = ⟨true, toolC9, 7⟩ :=
  ⟨(C9_memoized baseEnv envC8to toolC9 5 7).1 true rfl,
    (C9_memoized envC8to baseEnv toolC9 7 5).1 true rfl⟩

/-- C8 counterexample: with every command timing out, the very first probe
of `ensure_sqlite3_on_device` (which runs outside any try/except) raises —
refuting the claim that the function never raises for every sequence of
device responses including timeouts. -/
theorem C8_counterexample :
    ensure_sqlite3_on_device envC8to 0 = EnsureResult.raised 1 := rfl

/-- The system-path loop returns normally on every response sequence
without timeouts. -/
theorem trySystemPaths_total (env : Env) (h : ∀ k, env.oracle k ≠ Shot.timeout) :
    ∀ (ps : List String) (n : Nat),
      (∃ p m, trySystemPaths env ps n = SysRes.found p m) ∨
      (∃ m, trySystemPaths env ps n = SysRes.exhausted m) := by
  intro ps
  induction ps with
  | nil => exact fun n => Or.inr ⟨n, rfl⟩
  | cons p ps ih =>
    intro n
    unfold trySystemPaths
    cases h0 : env.oracle n with
    | timeout => exact absurd h0 (h n)
    | ok so se c =>
      simp only [h0]
      split
      · cases h1 : env.oracle (n + 1) with
        | timeout => exact absurd h1 (h (n + 1))
        | ok so2 se2 c2 =>
          simp only [h1]
          split
          · cases h2 : env.oracle (n + 2) with
            | timeout => exact absurd h2 (h (n + 2))
            | ok so3 se3 c3 =>
              simp only [h2]
              cases h3 : env.oracle (n + 3) with
              | timeout => exact absurd h3 (h (n + 3))
              | ok so4 se4 c4 =>
                simp only [h3]
                split
                · exact Or.inl ⟨_, _, rfl⟩
                · exact ih (n + 4)
          · exact Or.inl ⟨_, _, rfl⟩
      · exact ih (n + 1)

/-- C8 (amended): `ensure_sqlite3_on_device` returns a path or `None` for
every device-response sequence in which no command times out; a timed-out
probe raises instead (the concrete conjuncts show the first sqlite3 probe
raising), and `check_run_as_support` catches that exception and memoizes
"unsupported" — so callers still only ever see a boolean. -/
theorem C8_no_timeout_total (env : Env) (n : Nat) (h : ∀ k, env.oracle k ≠ Shot.timeout) :
    (∃ p m, ensure_sqlite3_on_device env n = EnsureResult.returned p m) ∧
    (ensure_sqlite3_on_device envC8c 2 = EnsureResult.raised 3 ∧
      (check_run_as_support envC8c {} 0).result = false ∧
      (check_run_as_support envC8c {} 0).tool.run_as_supported = some false) := by
  constructor
  · unfold ensure_sqlite3_on_device
    cases h0 : env.oracle n with
    | timeout => exact absurd h0 (h n)
    | ok so se c =>
      simp only [h0]
      split
      · exact ⟨_, _, rfl⟩
      · rcases trySystemPaths_total env h system_paths (n + 1) with ⟨p, m, hm⟩ | ⟨m, hm⟩
        · rw [hm]
          exact ⟨_, _, rfl⟩
        · rw [hm]
          by_cases hb : env.bundledExists
          · exact ⟨(bundledPhase env m).1, (bundledPhase env m).2, by simp [hb]⟩
          · exact ⟨none, m, by simp [hb]⟩
  · exact ⟨rfl, ⟨rfl, rfl⟩⟩

/-- C8 witness: in the timeout-free neutral environment, provisioning walks
every branch and returns normally. -/
theorem C8_no_timeout_total_witness :
    ∃ p m, ensure_sqlite3_on_device envC8w 0 = EnsureResult.returned p m :=
  (C8_no_timeout_total envC8w 0 (fun k => by simp [envC8w, baseEnv])).1

/-- C1 counterexample: the remote execution of a SELECT fails with the
engine message `Error: no such table: foo`; `execute_remote_query` does
store `no such table: foo` in `last_error`, but `execute_query` then runs
the local fallback path (`localUsed = true`), which clears `last_error` and
— its pull failing here — leaves the generic pull-failure message attached
to the outward result instead of the engine's message. -/
theorem C1_counterexample :
    (execute_remote_query envC1 toolC1 qC1 0).tool.last_error =
      some "no such table: foo" ∧
    (execute_query envC1 toolC1 qC1 none true 0).localUsed = true ∧
    (execute_query envC1 toolC1 qC1 none true 0).result = none ∧
    (execute_query envC1 toolC1 qC1 none true 0).tool.last_error =
      some "Failed to pull database for local execution" :=
  ⟨rfl, rfl, rfl, rfl⟩

/-- C1 (amended): when the privileged execution of a query fails with any
engine error other than the "not debuggable" case, `execute_remote_query`
stores the extracted engine message in `last_error` and returns `None`, and
`execute_query` — far from surfacing that error without fallback — then
attempts local execution of the same query, whose outcome (including
whatever `last_error` it sets after clearing the remote one) becomes the
outward result. -/
theorem C1_data_error_falls_back (env : Env) (tool : Tool) (q0 : String) (limit : Option Int)
    (n m : Nat) (dbp so se : String) (c : Int)
    (hmemo : tool.run_as_supported = some true)
    (hfl : tool.force_local = false)
    (hfind : find_database_path env tool.db_name n = ⟨some dbp, m⟩)
    (hrun : env.oracle m = Shot.ok so se c)
    (hc : (c != 0) = true)
    (hnd : pyContains (pyLower (remote_error_msg so se)) "not debuggable" = false) :
    (execute_remote_query env tool (limitedQuery q0 limit) n).result = none ∧
    (execute_remote_query env tool (limitedQuery q0 limit) n).tool.last_error =
      some (remote_last_error (remote_error_msg so se)) ∧
    (execute_query env tool q0 limit true n).localUsed = true ∧
    (execute_query env tool q0 limit true n).result =
      (execute_query_local env
        (execute_remote_query env tool (limitedQuery q0 limit) n).tool
        (limitedQuery q0 limit) (m + 1)).result := by
  have hrem : execute_remote_query env tool (limitedQuery q0 limit) n =
      ⟨none, { tool with
        last_error := some (remote_last_error (remote_error_msg so se)) }, m + 1⟩ := by
    unfold execute_remote_query
    simp only
    rw [show ({ tool with last_error := none } : Tool).db_name = tool.db_name from rfl]
    rw [hfind]
    simp only [hrun, hc, hnd]
    simp
  have hch : check_run_as_support env tool n = ⟨true, tool, n⟩ := by
    simp [check_run_as_support, hmemo]
  have hexec : execute_query env tool q0 limit true n =
      ⟨(execute_query_local env (execute_remote_query env tool (limitedQuery q0 limit) n).tool
          (limitedQuery q0 limit) (m + 1)).result,
        (execute_query_local env (execute_remote_query env tool (limitedQuery q0 limit) n).tool
          (limitedQuery q0 limit) (m + 1)).tool,
        (execute_query_local env (execute_remote_query env tool (limitedQuery q0 limit) n).tool
          (limitedQuery q0 limit) (m + 1)).n, true⟩ := by
    conv_rhs => rw [hrem]
    unfold execute_query
    rw [hfl]
    simp only [Bool.not_false, Bool.and_true, if_true]
    rw [hch]
    simp only
    rw [hrem]
    rw [if_pos trivial]
    simp [hfl]
  refine ⟨by rw [hrem], by rw [hrem], by rw [hexec], by rw [hexec]⟩

/-- C1 witness: the concrete Data-error scenario instantiates the amended
claim. -/
theorem C1_data_error_falls_back_witness :
    (execute_remote_query envC1 toolC1 (limitedQuery qC1 none) 0).tool.last_error =
      some (remote_last_error (remote_error_msg "" "Error: no such table: foo")) :=
  (C1_data_error_falls_back envC1 toolC1 qC1 none 0 1 "databases/d.db" ""
    "Error: no such table: foo" 1 rfl rfl rfl rfl rfl (by decide)).2.1

/-- C10: when a non-write query runs remotely with exit 0 and empty output,
`execute_remote_query` returns the empty list exactly when the trimmed
upper-cased query starts with SELECT or PRAGMA, and `None` otherwise (for
example for a WITH query); `execute_query` treats that `None` as a remote
failure and falls back to local execution of the same query. -/
theorem C10_empty_output (env : Env) (tool : Tool) (q : String) (n m : Nat) (dbp so se : String)
    (hmemo : tool.run_as_supported = some true)
    (hfl : tool.force_local = false)
    (hfind : find_database_path env tool.db_name n = ⟨some dbp, m⟩)
    (hrun : env.oracle m = Shot.ok so se 0)
    (hempty : (pyStrip so == "") = true)
    (hw : is_write_query q = false) :
    ((execute_remote_query env tool q n).result =
      (if read_keyword_test q then some [] else none)) ∧
    (read_keyword_test q = false →
      (execute_query env tool q none true n).localUsed = true ∧
      (execute_query env tool q none true n).result =
        (execute_query_local env (execute_remote_query env tool q n).tool q (m + 1)).result) := by
  have hrem : execute_remote_query env tool q n =
      ⟨if read_keyword_test q then some [] else none, { tool with last_error := none }, m + 1⟩ := by
    unfold execute_remote_query
    simp only
    rw [show ({ tool with last_error := none } : Tool).db_name = tool.db_name from rfl]
    rw [hfind]
    simp only [hrun, hw]
    norm_num
    have he : pyStrip so = "" := by simpa using hempty
    rw [if_pos he]
    by_cases hk : read_keyword_test q
    · simp [hk]
    · simp [hk]
  constructor
  · rw [hrem]
  · intro hr
    have hch : check_run_as_support env tool n = ⟨true, tool, n⟩ := by
      simp [check_run_as_support, hmemo]
    have hexec : execute_query env tool q none true n =
        ⟨(execute_query_local env (execute_remote_query env tool q n).tool q (m + 1)).result,
          (execute_query_local env (execute_remote_query env tool q n).tool q (m + 1)).tool,
          (execute_query_local env (execute_remote_query env tool q n).tool q (m + 1)).n,
          true⟩ := by
      conv_rhs => rw [hrem]
      unfold execute_query
      rw [hfl]
      simp only [Bool.not_false, Bool.and_true, if_true, limitedQuery_none]
      rw [hch]
      simp only
      rw [hrem]
      rw [if_pos trivial]
      simp [hfl, hr]
    exact ⟨by rw [hexec], by rw [hexec]⟩

/-- C10 witness: a WITH query with empty remote output makes the remote
path answer `None` and the router fall back locally. -/
theorem C10_empty_output_witness :
    (execute_query envC10x toolC1 qC10 none true 0).localUsed = true :=
  ((C10_empty_output envC10x toolC1 qC10 0 1 "databases/d.db" "" ""
    rfl rfl rfl rfl rfl (by decide)).2 (by decide)).1

end ADB
